import Mathlib

/-!
Shallow embedding of `src/ontario_gauge_subbasins.py`.

The script loads a CSV of gauges, and for each row builds a buffered point,
filters the HydroATLAS Level-12 feature collection by that region, and either
(client mode) downloads the features, writes a zipped shapefile per gauge and a
combined ZIP at the end, or (ee_drive mode) queues an Earth Engine table export.

Modelling choices:
- Python floats are modelled as rationals (ℚ); CSV cells are numbers or strings.
- The Earth Engine server-side objects (`ee.Geometry`, `ee.FeatureCollection`)
  are modelled symbolically: `get_subbasins_fc` builds a description of the
  query rather than performing it.  The network call `fc.getInfo()` and the
  other external, fallible operations (shapefile writing via geopandas
  `to_file`, opening a zip archive for writing, starting a Drive export task)
  are fields of an `Env` record, so theorems quantify over their outcomes.
- The filesystem is modelled as a list of directories plus an association list
  from paths to file contents; a zip archive's content is its ordered list of
  entry names.  `os.path.join` is modelled as `d ++ "/" ++ n`,
  `os.path.basename` as the text after the last slash, `str.replace` by a
  direct recursion on the character list, and `os.path.relpath(full, base)`
  (used only for files inside `base`) by dropping the `base ++ "/"` prefix.
- Observable behaviour (rows entered into `process_gauge_row`, the
  "Processing gauge" prints, the constructed queries, skip notices, shapefile
  zip writes, started export tasks) is accumulated in an `Effects` trace.
- A Python exception is an `Except.error`; state passing makes the effects
  performed before the exception visible alongside the propagated error.
- `time.sleep`, `ee.Initialize`/authentication and the pandas CSV parser are
  not modelled: the run is given the already-loaded `DataFrame`.  Column-name
  mangling done by pandas `itertuples` for non-identifier column names is not
  modelled; `row._asdict()` is modelled as `dict(zip(df.columns, row))`.
-/

abbrev Err := String

/-- One cell of the loaded CSV table: pandas parses numeric columns to floats
(modelled as rationals) and leaves other values as strings. -/
inductive Cell where
  | num (q : ℚ)
  | str (s : String)
deriving DecidableEq, Repr

/-- Models Python `float(cell)`: succeeds on numeric cells, raises otherwise. -/
def Cell.toFloat : Cell → Except Err ℚ
  | .num q => .ok q
  | .str s => .error ("could not convert string to float: " ++ s)

/-- Models Python `str(cell)`. -/
def Cell.toStr : Cell → String
  | .num q => toString q
  | .str s => s

/-- Symbolic Earth Engine geometry: `ee.Geometry.Point([lon, lat])` and
`geom.buffer(radius_m)`. -/
inductive EEGeom where
  | point (lon lat : ℚ)
  | buffer (base : EEGeom) (radius_m : ℚ)
deriving DecidableEq, Repr

/-- Symbolic Earth Engine feature collection: a dataset id together with the
optional `filterBounds` region applied to it. -/
structure EEFeatureCollection where
  dataset : String
  boundsFilter : Option EEGeom
deriving DecidableEq, Repr

def DATASET_ID : String := "WWF/HydroATLAS/v1/Basins/level12"

/-- Embeds `get_subbasins_fc`: build a point from (lon, lat), buffer it by
`buffer_km * 1000.0` metres, and filter the dataset by the buffered region. -/
def get_subbasins_fc (lon lat buffer_km : ℚ) : EEFeatureCollection :=
  { dataset := DATASET_ID
    boundsFilter := some (.buffer (.point lon lat) (buffer_km * 1000)) }

/-- The buffer radius (in metres) a query was built with, if its bounds filter
is a buffered geometry. -/
def bufferRadiusOf (fc : EEFeatureCollection) : Option ℚ :=
  match fc.boundsFilter with
  | some (.buffer _ r) => some r
  | _ => none

/-- One GeoJSON feature as returned by `fc.getInfo()`: a geometry plus a
property table. -/
structure EEFeature where
  geometry : String
  properties : List (String × String)
deriving DecidableEq, Repr

/-- Models `shapely.geometry.shape` on a GeoJSON geometry (kept symbolic). -/
def shp_shape (g : String) : String := g

/-- One row of a GeoDataFrame: a geometry column plus the flattened feature
properties. -/
structure GDFRow where
  geometry : String
  props : List (String × String)
deriving DecidableEq, Repr

/-- Models a geopandas GeoDataFrame: its rows and its coordinate reference
system. -/
structure GeoDataFrame where
  rows : List GDFRow
  crs : String
deriving DecidableEq, Repr

/-- Models the pandas `.empty` attribute. -/
def GeoDataFrame.empty (g : GeoDataFrame) : Bool := g.rows.isEmpty

/-- Content of a file in the modelled filesystem: either an uninterpreted
plain file (a shapefile part) or a zip archive with its ordered entry names. -/
inductive FileData where
  | plain
  | zipf (entries : List String)
deriving DecidableEq, Repr

/-- The modelled filesystem: the set of directories and an association list
from file paths to contents (no path occurs twice). -/
structure FS where
  dirs : List String
  files : List (String × FileData)
deriving DecidableEq, Repr

def FS.empty : FS := { dirs := [], files := [] }

/-- Embeds `ensure_dir` (`os.makedirs(p, exist_ok=True)`). -/
def FS.ensureDir (fs : FS) (p : String) : FS :=
  if fs.dirs.contains p then fs else { fs with dirs := fs.dirs ++ [p] }

/-- Create or overwrite the file at `p`. -/
def FS.setFile (fs : FS) (p : String) (d : FileData) : FS :=
  { fs with files := fs.files.filter (fun e2 => e2.1 != p) ++ [(p, d)] }

/-- Content of the file at `p`, if present. -/
def FS.lookup (fs : FS) (p : String) : Option FileData :=
  (fs.files.find? (fun e2 => e2.1 == p)).map (fun e2 => e2.2)

/-- Whether path `p` lies strictly inside directory `dir` (has `dir ++ "/"` as
a prefix). -/
def underDir (dir p : String) : Bool :=
  (dir.data ++ ['/']).isPrefixOf p.data

/-- Models `os.path.relpath(full, start)` in the only case the script uses it:
`full` inside `start`. -/
def relpath (full base : String) : String :=
  if (base.data ++ ['/']).isPrefixOf full.data then
    String.mk (full.data.drop (base.data.length + 1))
  else full

/-- Models `os.path.basename`: the text after the last slash. -/
def basename (p : String) : String :=
  String.mk (p.data.foldl (fun acc c => if c = '/' then [] else acc ++ [c]) [])

/-- Models `s.replace(".zip", "")` on the character list: scanning left to
right, every occurrence of `.zip` is removed. -/
def stripZipData : List Char → List Char
  | '.' :: 'z' :: 'i' :: 'p' :: cs => stripZipData cs
  | c :: cs => c :: stripZipData cs
  | [] => []

/-- Models Python `out_zip_path.replace(".zip", "")`. -/
def stripZip (s : String) : String := String.mk (stripZipData s.data)

/-- The file names geopandas `to_file(..., driver="ESRI Shapefile")` creates
for a polygon layer (modelled as the standard sidecar set). -/
def shapefile_parts (layer_name : String) : List String :=
  [layer_name ++ ".shp", layer_name ++ ".shx", layer_name ++ ".dbf",
   layer_name ++ ".prj", layer_name ++ ".cpg"]

/-- The external, fallible operations the script performs: the
`fc.getInfo()` network download, geopandas `to_file`, opening a zip archive
for writing, and `ee.batch.Export.table.toDrive(...).start()` (returning the
task id). -/
structure Env where
  getInfo : EEFeatureCollection → Except Err (List EEFeature)
  toFile : GeoDataFrame → String → Option Err
  zipWrite : String → Option Err
  startExport : EEFeatureCollection → String → Option String → Except Err String

/-- Embeds `fc_to_geodataframe`: download the features and convert them to a
GeoDataFrame in EPSG:4326; an absent or empty feature list gives an empty
frame. -/
def fc_to_geodataframe (env : Env) (fc : EEFeatureCollection) :
    Except Err GeoDataFrame :=
  match env.getInfo fc with
  | .error e => .error e
  | .ok feats =>
    if feats.isEmpty then .ok { rows := [], crs := "EPSG:4326" }
    else .ok { rows := feats.map (fun f => { geometry := shp_shape f.geometry
                                             props := f.properties })
               crs := "EPSG:4326" }

/-- Embeds `write_shapefile_zip`: write the GeoDataFrame as a shapefile into
the temporary directory obtained by stripping `.zip` from the archive path,
zip all files found under that directory (entry names relative to it), then
remove the directory tree. -/
def write_shapefile_zip (env : Env) (gdf : GeoDataFrame) (fs : FS)
    (out_zip_path layer_name : String) : Except Err Unit × FS :=
  let tmp_dir := stripZip out_zip_path
  let fs1 := fs.ensureDir tmp_dir
  let shp_path := tmp_dir ++ "/" ++ (layer_name ++ ".shp")
  match env.toFile gdf shp_path with
  | some e => (.error e, fs1)
  | none =>
    let fs2 : FS :=
      { fs1 with files :=
          fs1.files ++ ((shapefile_parts layer_name).map
            (fun fn => (tmp_dir ++ "/" ++ fn, FileData.plain))) }
    let walked := fs2.files.filter (fun e2 => underDir tmp_dir e2.1)
    let entries := walked.map (fun e2 => relpath e2.1 tmp_dir)
    match env.zipWrite out_zip_path with
    | some e => (.error e, fs2)
    | none =>
      let fs3 := fs2.setFile out_zip_path (FileData.zipf entries)
      let fs4 : FS :=
        { dirs := fs3.dirs.filter
            (fun d => !underDir tmp_dir d && d != tmp_dir)
          files := fs3.files.filter (fun e2 => !underDir tmp_dir e2.1) }
      (.ok (), fs4)

/-- Embeds `queue_ee_drive_export` (the `task.start()` call). -/
def queue_ee_drive_export (env : Env) (fc : EEFeatureCollection)
    (description : String) (folder : Option String) : Except Err String :=
  env.startExport fc description folder

/-- Embeds `build_combined_zip`: no-op (with a console notice) on an empty
path list, otherwise write `all_gauge_subbasins.zip` whose entries are the
given archives under their base filenames, in list order. -/
def build_combined_zip (zip_paths : List String) (out_dir : String) (fs : FS) :
    FS :=
  if zip_paths.isEmpty then fs
  else
    let combined := out_dir ++ "/" ++ "all_gauge_subbasins.zip"
    fs.setFile combined (FileData.zipf (zip_paths.map basename))

/-- The path `build_combined_zip` writes to. -/
def combinedZipPath (out_dir : String) : String :=
  out_dir ++ "/" ++ "all_gauge_subbasins.zip"

inductive ExportMode where
  | client
  | ee_drive
deriving DecidableEq, Repr

/-- The command-line arguments the modelled behaviour depends on (defaults as
in the script; `gauges_csv`, `ee_project` and `sleep_sec` do not affect the
modelled state and are omitted). -/
structure Args where
  lat_col : String := "LATITUDE"
  lon_col : String := "LONGITUDE"
  id_col : String := "STATION_NUMBER"
  buffer_km : ℚ := 25
  export_mode : ExportMode := .client
  out_dir : String := "outputs"
  drive_folder : Option String := none
  limit : Option Int := none
deriving DecidableEq, Repr

/-- One row as handed to `process_gauge_row`: `dict(zip(df.columns, row))`. -/
abbrev Row := List (String × Cell)

/-- The (lat, lon, gid) triple extracted at the top of `process_gauge_row`
(the "Processing gauge" line prints exactly these). -/
structure ProcRec where
  lat : ℚ
  lon : ℚ
  gid : String
deriving DecidableEq, Repr

/-- Models `row[col]`: a missing key raises `KeyError`. -/
def rowLookup (row : Row) (col : String) : Except Err Cell :=
  match row.lookup col with
  | some c => .ok c
  | none => .error ("KeyError: " ++ col)

/-- The field extraction at the top of `process_gauge_row`:
`float(row[lat_col])`, `float(row[lon_col])`, `str(row[id_col])`. -/
def extractRec (args : Args) (row : Row) : Except Err ProcRec :=
  match (rowLookup row args.lat_col).bind Cell.toFloat with
  | .error e => .error e
  | .ok lat =>
    match (rowLookup row args.lon_col).bind Cell.toFloat with
    | .error e => .error e
    | .ok lon =>
      match rowLookup row args.id_col with
      | .error e => .error e
      | .ok idc => .ok { lat := lat, lon := lon, gid := idc.toStr }

/-- The f-string `f"gauge_{gid}_subbasins"` (layer name and export
description). -/
def layerName (gid : String) : String := "gauge_" ++ gid ++ "_subbasins"

/-- The f-string `f"gauge_{gid}_subbasins.zip"`. -/
def perGaugeZipName (gid : String) : String :=
  "gauge_" ++ gid ++ "_subbasins.zip"

/-- The per-gauge archive path `os.path.join(out_dir, f"gauge_{gid}_subbasins.zip")`. -/
def perGaugeZipPath (args : Args) (gid : String) : String :=
  args.out_dir ++ "/" ++ perGaugeZipName gid

/-- The skip notice printed for a gauge with no intersecting sub-basins. -/
def skipNotice (gid : String) : String :=
  "No sub-basins found for gauge " ++ gid ++ ". Skipping."

/-- Observable trace of a run: rows entered into `process_gauge_row`, the
"Processing gauge" records, the queries built, skip notices, per-gauge
archives written, export tasks started, and the filesystem. -/
structure Effects where
  rowsProcessed : List Row
  processed : List ProcRec
  queries : List EEFeatureCollection
  notices : List String
  writtenZips : List String
  exportsStarted : List String
  fs : FS
deriving DecidableEq, Repr

/-- Embeds `process_gauge_row`.  Returns the new `combined_paths` list (or the
propagated exception) together with the effects performed up to that point. -/
def process_gauge_row (env : Env) (args : Args) (row : Row)
    (combined_paths : List String) (eff : Effects) :
    Except Err (List String) × Effects :=
  let eff := { eff with rowsProcessed := eff.rowsProcessed ++ [row] }
  match extractRec args row with
  | .error e => (.error e, eff)
  | .ok p =>
    let eff := { eff with processed := eff.processed ++ [p] }
    let fc := get_subbasins_fc p.lon p.lat args.buffer_km
    let eff := { eff with queries := eff.queries ++ [fc] }
    match args.export_mode with
    | .client =>
      match fc_to_geodataframe env fc with
      | .error e => (.error e, eff)
      | .ok gdf =>
        if gdf.empty then
          (.ok combined_paths,
           { eff with notices := eff.notices ++ [skipNotice p.gid] })
        else
          let out_zip := perGaugeZipPath args p.gid
          match write_shapefile_zip env gdf eff.fs out_zip (layerName p.gid) with
          | (.error e, fs2) => (.error e, { eff with fs := fs2 })
          | (.ok _, fs2) =>
            (.ok (combined_paths ++ [out_zip]),
             { eff with fs := fs2
                        writtenZips := eff.writtenZips ++ [out_zip] })
    | .ee_drive =>
      match queue_ee_drive_export env fc (layerName p.gid) args.drive_folder with
      | .error e => (.error e, eff)
      | .ok _tid =>
        (.ok combined_paths,
         { eff with exportsStarted := eff.exportsStarted ++ [layerName p.gid] })

/-- The loop-break test `if args.limit and count >= args.limit` (Python
truthiness: `None` and `0` are falsy). -/
def limitHit : Option Int → Int → Bool
  | none, _ => false
  | some l, count => l != 0 && decide (l ≤ count)

/-- Embeds the `for row in it` loop of `main`: process each row, incrementing
`count`, breaking when the limit is hit; an exception stops the loop and
propagates. -/
def runLoop (env : Env) (args : Args) :
    List Row → Int → List String → Effects →
    Except Err Unit × List String × Effects
  | [], _, paths, eff => (.ok (), paths, eff)
  | row :: rest, count, paths, eff =>
    match process_gauge_row env args row paths eff with
    | (.error e, eff2) => (.error e, paths, eff2)
    | (.ok paths2, eff2) =>
      if limitHit args.limit (count + 1) then (.ok (), paths2, eff2)
      else runLoop env args rest (count + 1) paths2 eff2

/-- The loaded CSV table: column names and rows of cells. -/
structure DataFrame where
  columns : List String
  rows : List (List Cell)
deriving DecidableEq, Repr

/-- The rows as `process_gauge_row` receives them
(`dict(zip(df.columns, row))`). -/
def dfRows (df : DataFrame) : List Row :=
  df.rows.map (fun r => df.columns.zip r)

/-- The required-column check of `main`: the first of
`[lat_col, lon_col, id_col]` missing from the table raises `KeyError`. -/
def checkColumns (args : Args) (df : DataFrame) : Except Err Unit :=
  match [args.lat_col, args.lon_col, args.id_col].find?
      (fun c => !(df.columns.contains c)) with
  | some c => .error ("Column " ++ c ++ " not found in CSV.")
  | none => .ok ()

/-- The effects state just before the loop: nothing happened yet except
`ensure_dir(args.out_dir)`. -/
def initEffects (args : Args) : Effects :=
  { rowsProcessed := [], processed := [], queries := [], notices := []
    writtenZips := [], exportsStarted := []
    fs := FS.empty.ensureDir args.out_dir }

/-- Embeds `main` after argument parsing: ensure the output directory, load
the table (given), check the required columns, run the row loop, and in client
mode build the combined zip from the accumulated paths. -/
def runMain (env : Env) (args : Args) (df : DataFrame) :
    Except Err Unit × Effects :=
  let eff0 := initEffects args
  match checkColumns args df with
  | .error e => (.error e, eff0)
  | .ok _ =>
    match runLoop env args (dfRows df) 0 [] eff0 with
    | (.error e, _, eff) => (.error e, eff)
    | (.ok _, paths, eff) =>
      match args.export_mode with
      | .client =>
        (.ok (), { eff with fs := build_combined_zip paths args.out_dir eff.fs })
      | .ee_drive => (.ok (), eff)

/-- Whether the modelled query for this record downloads a non-empty feature
list under `env` (the condition deciding the per-gauge archive branch). -/
def nonemptyResult (env : Env) (args : Args) (p : ProcRec) : Bool :=
  match env.getInfo (get_subbasins_fc p.lon p.lat args.buffer_km) with
  | .ok feats => !feats.isEmpty
  | .error _ => false

/-- The effects state after the query of one row has been built (shared shape
of all post-extraction branches of `process_gauge_row`). -/
def effAfterQuery (args : Args) (row : Row) (p : ProcRec) (eff : Effects) :
    Effects :=
  { eff with
      rowsProcessed := eff.rowsProcessed ++ [row]
      processed := eff.processed ++ [p]
      queries := eff.queries ++ [get_subbasins_fc p.lon p.lat args.buffer_km] }

/-- The archive path a processed record contributes when its query result is
non-empty. -/
def pathOfRec (args : Args) (p : ProcRec) : String := perGaugeZipPath args p.gid

/-- Fixture: one concrete HydroATLAS feature. -/
def feat0 : EEFeature :=
  { geometry := "poly0", properties := [("HYBAS_ID", "1")] }

/-- Fixture: an environment where every query downloads one feature and all
external operations succeed. -/
def envNE : Env :=
  { getInfo := fun _ => Except.ok [feat0]
    toFile := fun _ _ => none
    zipWrite := fun _ => none
    startExport := fun _ d _ => Except.ok ("task_" ++ d) }

/-- Fixture: every query downloads an empty feature list. -/
def envMT : Env := { envNE with getInfo := fun _ => Except.ok [] }

/-- Fixture: every download raises. -/
def envFail : Env := { envNE with getInfo := fun _ => Except.error "EEException" }

/-- Fixture: the default command-line arguments. -/
def args0 : Args := {}

/-- Fixture: a one-gauge table. -/
def df0 : DataFrame :=
  { columns := ["STATION_NUMBER", "LATITUDE", "LONGITUDE"]
    rows := [[Cell.str "A", Cell.num 1, Cell.num 2]] }

/-- Fixture: two distinct gauge rows sharing the station id "A". -/
def dfDup : DataFrame :=
  { columns := ["STATION_NUMBER", "LATITUDE", "LONGITUDE"]
    rows := [[Cell.str "A", Cell.num 1, Cell.num 2],
             [Cell.str "A", Cell.num 3, Cell.num 4]] }

/-- Fixture: a table missing the longitude column. -/
def dfMiss : DataFrame :=
  { columns := ["STATION_NUMBER", "LATITUDE"]
    rows := [[Cell.str "A", Cell.num 1]] }

/-- Fixture: the row of `df0` as `process_gauge_row` receives it. -/
def row0 : Row :=
  [("STATION_NUMBER", Cell.str "A"), ("LATITUDE", Cell.num 1),
   ("LONGITUDE", Cell.num 2)]

/-- Fixture: the record extracted from `row0`. -/
def prec0 : ProcRec := { lat := 1, lon := 2, gid := "A" }


lemma process_rowsProcessed (env : Env) (args : Args) (row : Row)
    (paths : List String) (eff : Effects) :
    ((process_gauge_row env args row paths eff).2).rowsProcessed
      = eff.rowsProcessed ++ [row] := by
  unfold process_gauge_row
  cases hext : extractRec args row with
  | error e => simp
  | ok p =>
    cases hmode : args.export_mode with
    | client =>
      cases hg : fc_to_geodataframe env (get_subbasins_fc p.lon p.lat args.buffer_km) with
      | error e => simp [hg]
      | ok gdf =>
        by_cases he : gdf.empty
        · simp [hg, he]
        · cases hw : write_shapefile_zip env gdf eff.fs (perGaugeZipPath args p.gid)
              (layerName p.gid) with
          | mk r fs2 => cases r <;> simp [hg, he, hw]
    | ee_drive =>
      cases hq : queue_ee_drive_export env (get_subbasins_fc p.lon p.lat args.buffer_km)
          (layerName p.gid) args.drive_folder with
      | error e => simp [hq]
      | ok tid => simp [hq]

lemma process_queries (env : Env) (args : Args) (row : Row)
    (paths : List String) (eff : Effects) :
    ∃ qs, ((process_gauge_row env args row paths eff).2).queries
        = eff.queries ++ qs ∧
      ∀ q ∈ qs, bufferRadiusOf q = some (args.buffer_km * 1000) := by
  unfold process_gauge_row
  cases hext : extractRec args row with
  | error e => exact ⟨[], by simp⟩
  | ok p =>
    have hrad : ∀ q ∈ [get_subbasins_fc p.lon p.lat args.buffer_km],
        bufferRadiusOf q = some (args.buffer_km * 1000) := by
      simp [get_subbasins_fc, bufferRadiusOf]
    cases hmode : args.export_mode with
    | client =>
      cases hg : fc_to_geodataframe env (get_subbasins_fc p.lon p.lat args.buffer_km) with
      | error e => exact ⟨_, by simp [hg], hrad⟩
      | ok gdf =>
        by_cases he : gdf.empty
        · exact ⟨_, by simp [hg, he], hrad⟩
        · cases hw : write_shapefile_zip env gdf eff.fs (perGaugeZipPath args p.gid)
              (layerName p.gid) with
          | mk r fs2 =>
            cases r
            · exact ⟨_, by simp [hg, he, hw], hrad⟩
            · exact ⟨_, by simp [hg, he, hw], hrad⟩
    | ee_drive =>
      cases hq : queue_ee_drive_export env (get_subbasins_fc p.lon p.lat args.buffer_km)
          (layerName p.gid) args.drive_folder with
      | error e => exact ⟨_, by simp [hq], hrad⟩
      | ok tid => exact ⟨_, by simp [hq], hrad⟩

lemma process_drive_frame (env : Env) (args : Args) (row : Row)
    (paths : List String) (eff : Effects)
    (hmode : args.export_mode = ExportMode.ee_drive) :
    ((process_gauge_row env args row paths eff).2).fs = eff.fs ∧
    ((process_gauge_row env args row paths eff).2).writtenZips
      = eff.writtenZips ∧
    ∀ paths2, (process_gauge_row env args row paths eff).1 = Except.ok paths2 →
      paths2 = paths := by
  unfold process_gauge_row
  cases hext : extractRec args row with
  | error e => simp
  | ok p =>
    rw [hmode]
    cases hq : queue_ee_drive_export env (get_subbasins_fc p.lon p.lat args.buffer_km)
        (layerName p.gid) args.drive_folder with
    | error e => simp [hq]
    | ok tid => simp [hq]

lemma process_client_ok (env : Env) (args : Args) (row : Row)
    (paths paths2 : List String) (eff eff2 : Effects)
    (hmode : args.export_mode = ExportMode.client)
    (h : process_gauge_row env args row paths eff = (Except.ok paths2, eff2)) :
    ∃ p, extractRec args row = Except.ok p ∧
      eff2.processed = eff.processed ++ [p] ∧
      ((nonemptyResult env args p = false ∧ paths2 = paths ∧
          eff2.writtenZips = eff.writtenZips ∧ eff2.fs = eff.fs) ∨
       (nonemptyResult env args p = true ∧
          paths2 = paths ++ [perGaugeZipPath args p.gid] ∧
          eff2.writtenZips = eff.writtenZips ++ [perGaugeZipPath args p.gid])) := by
  unfold process_gauge_row at h
  cases hext : extractRec args row with
  | error e => rw [hext] at h; simp at h
  | ok p =>
    rw [hext, hmode] at h
    dsimp only at h
    refine ⟨p, rfl, ?_⟩
    cases hinfo : env.getInfo (get_subbasins_fc p.lon p.lat args.buffer_km) with
    | error e => simp [fc_to_geodataframe, hinfo] at h
    | ok feats =>
      cases feats with
      | nil =>
        simp only [fc_to_geodataframe, hinfo, List.isEmpty_nil, if_true,
          GeoDataFrame.empty, if_pos, Prod.mk.injEq, Except.ok.injEq] at h
        obtain ⟨h1, h2⟩ := h
        subst h1
        subst h2
        refine ⟨by simp, Or.inl ⟨?_, rfl, by simp, by simp⟩⟩
        simp [nonemptyResult, hinfo]
      | cons f0 ft =>
        simp only [fc_to_geodataframe, hinfo, List.isEmpty_cons, if_false,
          Bool.false_eq_true, ite_false] at h
        set gdf0 : GeoDataFrame :=
          GeoDataFrame.mk ((f0 :: ft).map (fun f =>
            GDFRow.mk (shp_shape f.geometry) f.properties)) "EPSG:4326" with hgdf
        have hemp : gdf0.empty = false := by simp [hgdf, GeoDataFrame.empty]
        rw [hemp] at h
        simp only [Bool.false_eq_true, ite_false] at h
        cases hw : write_shapefile_zip env gdf0 eff.fs (perGaugeZipPath args p.gid)
            (layerName p.gid) with
        | mk r fs2 =>
          rw [hw] at h
          cases r with
          | error e => simp at h
          | ok u =>
            simp only [Prod.mk.injEq, Except.ok.injEq] at h
            obtain ⟨h1, h2⟩ := h
            subst h1
            subst h2
            refine ⟨by simp, Or.inr ⟨?_, rfl, by simp⟩⟩
            simp [nonemptyResult, hinfo]


lemma runLoop_client (env : Env) (args : Args)
    (hmode : args.export_mode = ExportMode.client) (rows : List Row) :
    ∀ (count : Int) (paths paths2 : List String) (eff eff2 : Effects),
      runLoop env args rows count paths eff = (Except.ok (), paths2, eff2) →
      ∃ ps : List ProcRec,
        eff2.processed = eff.processed ++ ps ∧
        paths2 = paths ++ (ps.filter (fun p => nonemptyResult env args p)).map
          (pathOfRec args) ∧
        eff2.writtenZips = eff.writtenZips ++
          (ps.filter (fun p => nonemptyResult env args p)).map (pathOfRec args) ∧
        (ps.filter (fun p => nonemptyResult env args p) = [] →
          eff2.fs = eff.fs) := by
  induction rows with
  | nil =>
    intro count paths paths2 eff eff2 h
    simp only [runLoop, Prod.mk.injEq] at h
    exact ⟨[], by simp [← h.2.2], by simp [← h.2.1], by simp [← h.2.2],
           fun _ => by simp [← h.2.2]⟩
  | cons row rest ih =>
    intro count paths paths2 eff eff2 h
    unfold runLoop at h
    cases hp : process_gauge_row env args row paths eff with
    | mk r effR =>
      rw [hp] at h
      cases r with
      | error e => simp at h
      | ok pathsR =>
        dsimp only at h
        obtain ⟨p, hext, hproc, hbranch⟩ :=
          process_client_ok env args row paths pathsR eff effR hmode hp
        by_cases hl : limitHit args.limit (count + 1)
        · rw [if_pos hl] at h
          simp only [Prod.mk.injEq] at h
          obtain ⟨-, h2, h3⟩ := h
          subst h2
          subst h3
          rcases hbranch with ⟨hne, hpth, hwz, hfs⟩ | ⟨hne, hpth, hwz⟩
          · exact ⟨[p], by simp [hproc], by simp [hne, hpth],
                   by simp [hne, hwz], fun _ => hfs⟩
          · refine ⟨[p], by simp [hproc], by simp [hne, hpth, pathOfRec],
                   by simp [hne, hwz, pathOfRec], fun hx => ?_⟩
            simp [hne] at hx
        · rw [if_neg hl] at h
          obtain ⟨ps, ih1, ih2, ih3, ih4⟩ :=
            ih (count + 1) pathsR paths2 effR eff2 h
          rcases hbranch with ⟨hne, hpth, hwz, hfs⟩ | ⟨hne, hpth, hwz⟩
          · refine ⟨p :: ps, ?_, ?_, ?_, ?_⟩
            · rw [ih1, hproc]; simp
            · rw [ih2, hpth]; simp [hne]
            · rw [ih3, hwz]; simp [hne]
            · intro hx
              simp only [List.filter_cons, hne] at hx
              rw [ih4 hx, hfs]
          · refine ⟨p :: ps, ?_, ?_, ?_, ?_⟩
            · rw [ih1, hproc]; simp
            · rw [ih2, hpth]; simp [hne, pathOfRec]
            · rw [ih3, hwz]; simp [hne, pathOfRec]
            · intro hx
              simp [hne] at hx

lemma isPrefixOf_self_append (a b : List Char) : a.isPrefixOf (a ++ b) = true := by
  induction a with
  | nil => simp [List.isPrefixOf]
  | cons c t ih => simp [List.isPrefixOf, ih]

lemma FS.lookup_setFile_self (fs : FS) (p : String) (d : FileData) :
    (fs.setFile p d).lookup p = some d := by
  have h1 : (fs.files.filter (fun e2 => e2.1 != p)).find? (fun e2 => e2.1 == p)
      = none := by
    rw [List.find?_eq_none]
    intro x hx
    have hne := (List.mem_filter.mp hx).2
    simp only [bne_iff_ne, ne_eq] at hne
    simp [hne]
  simp [FS.setFile, FS.lookup, List.find?_append, h1]

lemma initEffects_fs_files (args : Args) : (initEffects args).fs.files = [] := by
  simp only [initEffects, FS.ensureDir, FS.empty]
  split <;> rfl

lemma initEffects_fs_dirs (args : Args) :
    (initEffects args).fs.dirs = [args.out_dir] := by
  simp [initEffects, FS.ensureDir, FS.empty]

lemma runMain_ok_inv (env : Env) (args : Args) (df : DataFrame) (eff : Effects)
    (h : runMain env args df = (Except.ok (), eff)) :
    ∃ paths effL, checkColumns args df = Except.ok () ∧
      runLoop env args (dfRows df) 0 [] (initEffects args)
        = (Except.ok (), paths, effL) ∧
      ((args.export_mode = ExportMode.client ∧
          eff = { effL with
                    fs := build_combined_zip paths args.out_dir effL.fs }) ∨
       (args.export_mode = ExportMode.ee_drive ∧ eff = effL)) := by
  unfold runMain at h
  cases hcc : checkColumns args df with
  | error e => rw [hcc] at h; simp at h
  | ok u =>
    rw [hcc] at h
    dsimp only at h
    cases hrl : runLoop env args (dfRows df) 0 [] (initEffects args) with
    | mk r pe =>
      cases pe with
      | mk paths effL =>
        rw [hrl] at h
        cases r with
        | error e => simp at h
        | ok u2 =>
          cases hm : args.export_mode with
          | client =>
            rw [hm] at h
            simp only [Prod.mk.injEq, true_and] at h
            exact ⟨paths, effL, rfl, rfl, Or.inl ⟨rfl, h.symm⟩⟩
          | ee_drive =>
            rw [hm] at h
            simp only [Prod.mk.injEq, true_and] at h
            exact ⟨paths, effL, rfl, rfl, Or.inr ⟨rfl, h.symm⟩⟩

lemma runLoop_queries (env : Env) (args : Args) (rows : List Row) :
    ∀ (count : Int) (paths paths2 : List String) (eff eff2 : Effects)
      (res : Except Err Unit),
      runLoop env args rows count paths eff = (res, paths2, eff2) →
      ∃ qs, eff2.queries = eff.queries ++ qs ∧
        ∀ q ∈ qs, bufferRadiusOf q = some (args.buffer_km * 1000) := by
  induction rows with
  | nil =>
    intro count paths paths2 eff eff2 res h
    simp only [runLoop, Prod.mk.injEq] at h
    exact ⟨[], by simp [← h.2.2], by simp⟩
  | cons row rest ih =>
    intro count paths paths2 eff eff2 res h
    unfold runLoop at h
    cases hp : process_gauge_row env args row paths eff with
    | mk r effR =>
      rw [hp] at h
      obtain ⟨qs1, hq1, hq1rad⟩ := process_queries env args row paths eff
      rw [hp] at hq1
      cases r with
      | error e =>
        dsimp only at h
        simp only [Prod.mk.injEq] at h
        exact ⟨qs1, by rw [← h.2.2]; exact hq1, hq1rad⟩
      | ok pathsR =>
        dsimp only at h
        by_cases hl : limitHit args.limit (count + 1)
        · rw [if_pos hl] at h
          simp only [Prod.mk.injEq] at h
          exact ⟨qs1, by rw [← h.2.2]; exact hq1, hq1rad⟩
        · rw [if_neg hl] at h
          obtain ⟨qs2, hq2, hq2rad⟩ :=
            ih (count + 1) pathsR paths2 effR eff2 res h
          refine ⟨qs1 ++ qs2, ?_, ?_⟩
          · rw [hq2, hq1, List.append_assoc]
          · intro q hq
            rcases List.mem_append.mp hq with hq | hq
            · exact hq1rad q hq
            · exact hq2rad q hq

lemma runLoop_drive (env : Env) (args : Args)
    (hmode : args.export_mode = ExportMode.ee_drive) (rows : List Row) :
    ∀ (count : Int) (paths paths2 : List String) (eff eff2 : Effects)
      (res : Except Err Unit),
      runLoop env args rows count paths eff = (res, paths2, eff2) →
      eff2.fs = eff.fs ∧ eff2.writtenZips = eff.writtenZips := by
  induction rows with
  | nil =>
    intro count paths paths2 eff eff2 res h
    simp only [runLoop, Prod.mk.injEq] at h
    rw [← h.2.2]
    exact ⟨rfl, rfl⟩
  | cons row rest ih =>
    intro count paths paths2 eff eff2 res h
    unfold runLoop at h
    cases hp : process_gauge_row env args row paths eff with
    | mk r effR =>
      rw [hp] at h
      obtain ⟨hfs, hwz, -⟩ := process_drive_frame env args row paths eff hmode
      rw [hp] at hfs hwz
      cases r with
      | error e =>
        dsimp only at h
        simp only [Prod.mk.injEq] at h
        rw [← h.2.2]
        exact ⟨hfs, hwz⟩
      | ok pathsR =>
        dsimp only at h
        by_cases hl : limitHit args.limit (count + 1)
        · rw [if_pos hl] at h
          simp only [Prod.mk.injEq] at h
          rw [← h.2.2]
          exact ⟨hfs, hwz⟩
        · rw [if_neg hl] at h
          obtain ⟨ih1, ih2⟩ := ih (count + 1) pathsR paths2 effR eff2 res h
          exact ⟨by rw [ih1, hfs], by rw [ih2, hwz]⟩

/-- C6: for every valid input row, the buffer radius passed to the geometry
buffering step of the Region Query equals 1000 × buffer_km, i.e. the
configured radius in kilometres converted to metres before buffering.  Stated
over the trace: every query a run builds carries buffer radius
`1000 * args.buffer_km` metres. -/
theorem C6_buffer_radius (env : Env) (args : Args) (df : DataFrame)
    (res : Except Err Unit) (eff : Effects)
    (hrun : runMain env args df = (res, eff)) :
    ∀ q ∈ eff.queries, bufferRadiusOf q = some (1000 * args.buffer_km) := by
  unfold runMain at hrun
  cases hcc : checkColumns args df with
  | error e =>
    rw [hcc] at hrun
    dsimp only at hrun
    simp only [Prod.mk.injEq] at hrun
    rw [← hrun.2]
    intro q hq
    simp [initEffects] at hq
  | ok u =>
    rw [hcc] at hrun
    dsimp only at hrun
    cases hrl : runLoop env args (dfRows df) 0 [] (initEffects args) with
    | mk r pe =>
      cases pe with
      | mk paths effL =>
        rw [hrl] at hrun
        obtain ⟨qs, hq, hrad⟩ :=
          runLoop_queries env args (dfRows df) 0 [] paths (initEffects args)
            effL r hrl
        have heffq : eff.queries = effL.queries := by
          cases r with
          | error e =>
            simp only [Prod.mk.injEq] at hrun
            rw [← hrun.2]
          | ok u2 =>
            cases hm : args.export_mode with
            | client =>
              rw [hm] at hrun
              simp only [Prod.mk.injEq] at hrun
              rw [← hrun.2]
            | ee_drive =>
              rw [hm] at hrun
              simp only [Prod.mk.injEq] at hrun
              rw [← hrun.2]
        intro q hqm
        rw [heffq, hq] at hqm
        simp only [initEffects, List.nil_append] at hqm
        rw [mul_comm]
        exact hrad q hqm

/-- C5: in remote (ee_drive) export mode, for every input and every outcome
(success or propagated exception), no file of any kind — in particular no
per-gauge archive and no combined archive — is ever written: the filesystem
still holds only the empty output directory, and the trace of shapefile-zip
writes is empty.  Only export-job submissions occur. -/
theorem C5_remote_no_archives (env : Env) (args : Args) (df : DataFrame)
    (res : Except Err Unit) (eff : Effects)
    (hmode : args.export_mode = ExportMode.ee_drive)
    (hrun : runMain env args df = (res, eff)) :
    eff.fs.files = [] ∧ eff.fs.dirs = [args.out_dir] ∧ eff.writtenZips = [] := by
  unfold runMain at hrun
  cases hcc : checkColumns args df with
  | error e =>
    rw [hcc] at hrun
    dsimp only at hrun
    simp only [Prod.mk.injEq] at hrun
    rw [← hrun.2]
    exact ⟨initEffects_fs_files args, initEffects_fs_dirs args, rfl⟩
  | ok u =>
    rw [hcc] at hrun
    dsimp only at hrun
    cases hrl : runLoop env args (dfRows df) 0 [] (initEffects args) with
    | mk r pe =>
      cases pe with
      | mk paths effL =>
        rw [hrl] at hrun
        obtain ⟨hfs, hwz⟩ :=
          runLoop_drive env args hmode (dfRows df) 0 [] paths
            (initEffects args) effL r hrl
        have heff : eff = effL := by
          cases r with
          | error e =>
            simp only [Prod.mk.injEq] at hrun
            exact hrun.2.symm
          | ok u2 =>
            rw [hmode] at hrun
            simp only [Prod.mk.injEq] at hrun
            exact hrun.2.symm
        rw [heff, hfs, hwz]
        exact ⟨initEffects_fs_files args, initEffects_fs_dirs args, rfl⟩

/-- C8: if processing a record raises an exception (from any modelled step:
field extraction, the region-query download, the shapefile write, the zip
write, or the export submission), the exception propagates unchanged out of
the row loop and the run halts there: the loop result is that same error, the
effects are exactly those of the failing call, and no element of the
remaining rows is processed. -/
theorem C8_exception_halts (env : Env) (args : Args) (row : Row)
    (rest : List Row) (count : Int) (paths : List String)
    (eff eff1 : Effects) (e : Err)
    (h : process_gauge_row env args row paths eff = (Except.error e, eff1)) :
    runLoop env args (row :: rest) count paths eff
      = (Except.error e, paths, eff1) ∧
    eff1.rowsProcessed = eff.rowsProcessed ++ [row] := by
  constructor
  · unfold runLoop
    rw [h]
  · have hr := process_rowsProcessed env args row paths eff
    rw [h] at hr
    exact hr

/-- C2: in client mode, a gauge whose region query downloads an empty feature
list produces no archive and no filesystem change, appends no path for the
Aggregator, emits the skip notice, raises no error, and (with no record
limit) the loop simply continues with the next row. -/
theorem C2_empty_result_skips (env : Env) (args : Args) (row : Row)
    (rest : List Row) (count : Int) (paths : List String) (eff : Effects)
    (p : ProcRec)
    (hmode : args.export_mode = ExportMode.client)
    (hext : extractRec args row = Except.ok p)
    (hinfo : env.getInfo (get_subbasins_fc p.lon p.lat args.buffer_km)
      = Except.ok []) :
    process_gauge_row env args row paths eff =
      (Except.ok paths,
       { effAfterQuery args row p eff with
           notices := eff.notices ++ [skipNotice p.gid] }) ∧
    (args.limit = none →
      runLoop env args (row :: rest) count paths eff
        = runLoop env args rest (count + 1) paths
            { effAfterQuery args row p eff with
                notices := eff.notices ++ [skipNotice p.gid] }) := by
  have h1 : process_gauge_row env args row paths eff =
      (Except.ok paths,
       { effAfterQuery args row p eff with
           notices := eff.notices ++ [skipNotice p.gid] }) := by
    unfold process_gauge_row
    rw [hext, hmode]
    dsimp only
    simp [fc_to_geodataframe, hinfo, GeoDataFrame.empty, effAfterQuery]
  refine ⟨h1, fun hlim => ?_⟩
  conv_lhs => unfold runLoop
  rw [h1]
  dsimp only
  rw [hlim]
  simp [limitHit]

/-- C4: if any of the three named columns (id, latitude, longitude) is absent
from the loaded table, the run raises a configuration error (a KeyError)
immediately after load: the result is that error with the pristine initial
state — no query built, no row entered processing, no file written. -/
theorem C4_missing_column_aborts (env : Env) (args : Args) (df : DataFrame)
    (hmiss : ¬(args.lat_col ∈ df.columns ∧ args.lon_col ∈ df.columns ∧
               args.id_col ∈ df.columns)) :
    ∃ e2, runMain env args df = (Except.error e2, initEffects args) ∧
      (initEffects args).queries = [] ∧
      (initEffects args).rowsProcessed = [] ∧
      (initEffects args).fs.files = [] := by
  have hcc : ∃ c, checkColumns args df
      = Except.error ("Column " ++ c ++ " not found in CSV.") := by
    unfold checkColumns
    by_cases h1 : args.lat_col ∈ df.columns
    · by_cases h2 : args.lon_col ∈ df.columns
      · by_cases h3 : args.id_col ∈ df.columns
        · exact absurd ⟨h1, h2, h3⟩ hmiss
        · exact ⟨args.id_col, by simp [h1, h2, h3]⟩
      · exact ⟨args.lon_col, by simp [h1, h2]⟩
    · exact ⟨args.lat_col, by simp [h1]⟩
  obtain ⟨c, hcc⟩ := hcc
  refine ⟨"Column " ++ c ++ " not found in CSV.", ?_, rfl, rfl,
    initEffects_fs_files args⟩
  unfold runMain
  rw [hcc]

lemma lookup_initEffects (args : Args) (p : String) :
    FS.lookup (initEffects args).fs p = none := by
  simp [FS.lookup, initEffects_fs_files]

/-- C1: in client mode, the combined archive produced at the end of a
successful run contains exactly one entry for every processed gauge whose
query downloaded a non-empty feature list — each entry named by the base
filename of that gauge's per-record archive, in order — and no entry for any
gauge whose result was empty; when every result was empty no combined archive
is written at all. -/
theorem C1_combined_entries (env : Env) (args : Args) (df : DataFrame)
    (eff : Effects)
    (hmode : args.export_mode = ExportMode.client)
    (hrun : runMain env args df = (Except.ok (), eff)) :
    FS.lookup eff.fs (combinedZipPath args.out_dir)
      = (if (eff.processed.filter (fun p => nonemptyResult env args p)).isEmpty
         then none
         else some (FileData.zipf
           ((eff.processed.filter (fun p => nonemptyResult env args p)).map
             (fun p => basename (pathOfRec args p))))) := by
  obtain ⟨paths, effL, hcc, hrl, hcase⟩ := runMain_ok_inv env args df eff hrun
  rcases hcase with ⟨-, heff⟩ | ⟨hm2, -⟩
  · obtain ⟨ps, hps, hpaths, hwz, hfs⟩ :=
      runLoop_client env args hmode (dfRows df) 0 [] paths
        (initEffects args) effL hrl
    have hproc : effL.processed = ps := by
      simpa [initEffects] using hps
    have hpaths2 : paths
        = (ps.filter (fun p => nonemptyResult env args p)).map (pathOfRec args) := by
      simpa using hpaths
    subst heff
    simp only [Effects.processed] at *
    rw [hproc]
    by_cases hfil : (ps.filter (fun p => nonemptyResult env args p)).isEmpty
    · have hfe : ps.filter (fun p => nonemptyResult env args p) = [] := by
        simpa [List.isEmpty_iff] using hfil
      have hpe : paths = [] := by rw [hpaths2, hfe]; rfl
      rw [if_pos hfil]
      have hfseq : effL.fs = (initEffects args).fs := hfs hfe
      simp only [build_combined_zip, hpe, List.isEmpty_nil, if_true]
      rw [hfseq]
      exact lookup_initEffects args _
    · have hpe : paths.isEmpty = false := by
        rw [hpaths2]
        simp only [List.isEmpty_eq_false] at hfil ⊢
        simpa using hfil
      rw [if_neg hfil]
      simp only [build_combined_zip, hpe, Bool.false_eq_true, if_false]
      rw [show args.out_dir ++ "/" ++ "all_gauge_subbasins.zip"
            = combinedZipPath args.out_dir from rfl]
      rw [FS.lookup_setFile_self]
      rw [hpaths2, List.map_map]
      rfl
  · rw [hmode] at hm2
    cases hm2

/-- C10: in client mode the per-gauge archive path list is append-only and
appended in iteration order (the loop extends it by exactly the archives of
the newly processed non-empty-result records, in processing order), and
`build_combined_zip` writes those paths into the combined archive as entries
in list order, named by their base filenames. -/
theorem C10_entry_order (env : Env) (args : Args) (rows : List Row)
    (count : Int) (paths paths2 : List String) (eff eff2 : Effects)
    (out_dir : String) (fs : FS)
    (hmode : args.export_mode = ExportMode.client)
    (h : runLoop env args rows count paths eff = (Except.ok (), paths2, eff2)) :
    (∃ ps, eff2.processed = eff.processed ++ ps ∧
       paths2 = paths ++
         (ps.filter (fun p => nonemptyResult env args p)).map (pathOfRec args)) ∧
    (paths2 ≠ [] →
       FS.lookup (build_combined_zip paths2 out_dir fs) (combinedZipPath out_dir)
         = some (FileData.zipf (paths2.map basename))) := by
  constructor
  · obtain ⟨ps, h1, h2, -, -⟩ :=
      runLoop_client env args hmode rows count paths paths2 eff eff2 h
    exact ⟨ps, h1, h2⟩
  · intro hne
    have hpe : paths2.isEmpty = false := by
      simpa [List.isEmpty_eq_false]
    simp only [build_combined_zip, hpe, Bool.false_eq_true, if_false]
    rw [show out_dir ++ "/" ++ "all_gauge_subbasins.zip"
          = combinedZipPath out_dir from rfl]
    exact FS.lookup_setFile_self _ _ _

lemma perGaugeZipPath_inj (args : Args) :
    Function.Injective (perGaugeZipPath args) := by
  intro g1 g2 h
  have hd := congrArg String.data h
  simp only [perGaugeZipPath, perGaugeZipName, String.data_append,
    List.append_assoc] at hd
  have h1 := List.append_cancel_left hd
  have h2 := List.append_cancel_left h1
  have h3 := List.append_cancel_left h2
  have h4 := List.append_cancel_right h3
  have h5 := congrArg String.mk h4
  simpa using h5

/-- C7 counterexample: with two distinct input records sharing the station id
"A" (different coordinates), the run succeeds but writes the per-gauge
archive path `outputs/gauge_A_subbasins.zip` twice — one ExportArtifact
produced by two distinct GaugeRecords, refuting the claim that no two
distinct input records yield the same per-gauge artifact. -/
theorem C7_counterexample :
    (runMain envNE args0 dfDup).1 = Except.ok () ∧
    ((runMain envNE args0 dfDup).2).processed
      = [ProcRec.mk 1 2 "A", ProcRec.mk 3 4 "A"] ∧
    ProcRec.mk 1 2 "A" ≠ ProcRec.mk 3 4 "A" ∧
    ((runMain envNE args0 dfDup).2).writtenZips
      = ["outputs/gauge_A_subbasins.zip", "outputs/gauge_A_subbasins.zip"] := by
  refine ⟨rfl, rfl, ?_, rfl⟩
  decide

/-- C7 amended: provided the station ids of the processed records are
pairwise distinct, every per-gauge archive is written for exactly one record
(the written-archive list has no duplicates and is exactly the non-empty
records mapped to their archive paths), and the combined archive corresponds
to that full list. -/
theorem C7_artifact_correspondence (env : Env) (args : Args) (df : DataFrame)
    (eff : Effects)
    (hmode : args.export_mode = ExportMode.client)
    (hrun : runMain env args df = (Except.ok (), eff))
    (hnodup : (eff.processed.map ProcRec.gid).Nodup) :
    eff.writtenZips.Nodup ∧
    eff.writtenZips
      = (eff.processed.filter (fun p => nonemptyResult env args p)).map
          (pathOfRec args) := by
  obtain ⟨paths, effL, hcc, hrl, hcase⟩ := runMain_ok_inv env args df eff hrun
  rcases hcase with ⟨-, heff⟩ | ⟨hm2, -⟩
  · obtain ⟨ps, hps, hpaths, hwz, hfs⟩ :=
      runLoop_client env args hmode (dfRows df) 0 [] paths
        (initEffects args) effL hrl
    have hproc : effL.processed = ps := by
      simpa [initEffects] using hps
    have hwz2 : effL.writtenZips
        = (ps.filter (fun p => nonemptyResult env args p)).map (pathOfRec args) := by
      simpa [initEffects] using hwz
    subst heff
    simp only [Effects.processed, Effects.writtenZips] at *
    rw [hproc] at hnodup ⊢
    refine ⟨?_, hwz2⟩
    rw [hwz2]
    have hsub : ((ps.filter (fun p => nonemptyResult env args p)).map
        ProcRec.gid).Sublist (ps.map ProcRec.gid) :=
      (List.filter_sublist ps).map ProcRec.gid
    have hnd2 : ((ps.filter (fun p => nonemptyResult env args p)).map
        ProcRec.gid).Nodup := hsub.nodup hnodup
    have hform : (ps.filter (fun p => nonemptyResult env args p)).map
          (pathOfRec args)
        = ((ps.filter (fun p => nonemptyResult env args p)).map
            ProcRec.gid).map (perGaugeZipPath args) := by
      rw [List.map_map]
      rfl
    rw [hform]
    exact hnd2.map (perGaugeZipPath_inj args)
  · rw [hmode] at hm2
    cases hm2

lemma runLoop_limit (env : Env) (args : Args) (l : Int)
    (hl : args.limit = some l) (rows : List Row) :
    ∀ (count : Int) (paths paths2 : List String) (eff eff2 : Effects),
      0 ≤ count → count < l →
      runLoop env args rows count paths eff = (Except.ok (), paths2, eff2) →
      eff2.rowsProcessed = eff.rowsProcessed ++ rows.take (l - count).toNat := by
  induction rows with
  | nil =>
    intro count paths paths2 eff eff2 h0 hcl h
    simp only [runLoop, Prod.mk.injEq] at h
    rw [← h.2.2]
    simp
  | cons row rest ih =>
    intro count paths paths2 eff eff2 h0 hcl h
    unfold runLoop at h
    cases hp : process_gauge_row env args row paths eff with
    | mk r effR =>
      rw [hp] at h
      have hrp := process_rowsProcessed env args row paths eff
      rw [hp] at hrp
      cases r with
      | error e =>
        dsimp only at h
        simp at h
      | ok pathsR =>
        dsimp only at h
        by_cases hbr : l ≤ count + 1
        · have hlz : l ≠ 0 := by omega
          have hhit : limitHit args.limit (count + 1) = true := by
            simp [limitHit, hl, hbr, hlz]
          rw [if_pos hhit] at h
          simp only [Prod.mk.injEq] at h
          rw [← h.2.2, hrp]
          have h1 : (l - count).toNat = 1 := by omega
          rw [h1]
          simp
        · have hmiss : limitHit args.limit (count + 1) = false := by
            simp [limitHit, hl, hbr]
          rw [hmiss] at h
          simp only [Bool.false_eq_true, if_false] at h
          have hrec := ih (count + 1) pathsR paths2 effR eff2
            (by omega) (by omega) h
          rw [hrec, hrp]
          have h2 : (l - count).toNat = (l - (count + 1)).toNat + 1 := by omega
          rw [h2]
          simp

/-- C3 amended: for every user-supplied record limit N with N ≥ 1, a
successful run processes exactly the first min(N, number of rows) rows of
the table in file order and no more (the take below saturates at the row
count).  The original claim fails for N = 0, which Python treats as falsy:
see the counterexample. -/
theorem C3_limit_processes_prefix (env : Env) (args : Args) (df : DataFrame)
    (eff : Effects) (N : Int)
    (hl : args.limit = some N) (hN : 1 ≤ N)
    (hrun : runMain env args df = (Except.ok (), eff)) :
    eff.rowsProcessed = (dfRows df).take N.toNat := by
  obtain ⟨paths, effL, hcc, hrl, hcase⟩ := runMain_ok_inv env args df eff hrun
  have hloop := runLoop_limit env args N hl (dfRows df) 0 [] paths
    (initEffects args) effL (le_refl 0) (by omega) hrl
  have hrp : effL.rowsProcessed = (dfRows df).take N.toNat := by
    simpa [initEffects] using hloop
  rcases hcase with ⟨-, heff⟩ | ⟨-, heff⟩ <;> rw [heff] <;> exact hrp

/-- C3 counterexample: with the record limit 0 on a one-row table, the run
succeeds and processes 1 row, not the first 0 rows: Python treats a limit of
0 as falsy, so a zero limit disables the cutoff instead of stopping before
the first row. -/
theorem C3_counterexample :
    (runMain envNE { args0 with limit := some 0 } df0).1 = Except.ok () ∧
    ((runMain envNE { args0 with limit := some 0 } df0).2).rowsProcessed.length
      = 1 := by
  exact ⟨rfl, rfl⟩

lemma ensureDir_files (fs : FS) (p : String) :
    (fs.ensureDir p).files = fs.files := by
  simp only [FS.ensureDir]
  split <;> rfl

lemma data_join (base fn : String) :
    (base ++ "/" ++ fn).data = (base.data ++ ['/']) ++ fn.data := by
  simp [String.data_append]

lemma underDir_append (base fn : String) :
    underDir base (base ++ "/" ++ fn) = true := by
  rw [underDir, data_join]
  exact isPrefixOf_self_append _ _

lemma relpath_append (base fn : String) :
    relpath (base ++ "/" ++ fn) base = fn := by
  rw [relpath, data_join]
  rw [if_pos (isPrefixOf_self_append (base.data ++ ['/']) fn.data)]
  have hlen : base.data.length + 1 = (base.data ++ ['/']).length := by simp
  rw [hlen, List.drop_left]

lemma find?_key_append (l : List (String × FileData)) (p : String)
    (d : FileData) (hne : ∀ e2 ∈ l, e2.1 ≠ p) :
    (l ++ [(p, d)]).find? (fun e2 => e2.1 == p) = some (p, d) := by
  have h1 : l.find? (fun e2 => e2.1 == p) = none := by
    rw [List.find?_eq_none]
    intro x hx
    simp [hne x hx]
  simp [List.find?_append, h1]

lemma write_shapefile_zip_eq (env : Env) (gdf : GeoDataFrame) (fs : FS)
    (out_zip layer : String)
    (htf : env.toFile gdf (stripZip out_zip ++ "/" ++ (layer ++ ".shp")) = none)
    (hzw : env.zipWrite out_zip = none)
    (hfresh : ∀ e2 ∈ fs.files, underDir (stripZip out_zip) e2.1 = false)
    (hout : underDir (stripZip out_zip) out_zip = false) :
    write_shapefile_zip env gdf fs out_zip layer =
      (Except.ok (),
       { dirs := ((fs.ensureDir (stripZip out_zip)).dirs).filter
           (fun d => !underDir (stripZip out_zip) d && d != stripZip out_zip)
         files := fs.files.filter (fun e2 => e2.1 != out_zip)
           ++ [(out_zip, FileData.zipf (shapefile_parts layer))] }) := by
  have hparts_ne : ∀ fn : String, (stripZip out_zip ++ "/" ++ fn) ≠ out_zip := by
    intro fn heq
    have hu := underDir_append (stripZip out_zip) fn
    rw [heq, hout] at hu
    cases hu
  unfold write_shapefile_zip
  dsimp only
  rw [htf, hzw]
  dsimp only
  congr 1
  have hful : (fs.ensureDir (stripZip out_zip)).files = fs.files :=
    ensureDir_files _ _
  rw [hful]
  have hfs_under : fs.files.filter
      (fun e2 => underDir (stripZip out_zip) e2.1) = [] := by
    rw [List.filter_eq_nil_iff]
    intro a ha
    simp [hfresh a ha]
  have hwalked :
      (fs.files ++ ((shapefile_parts layer).map
          (fun fn => (stripZip out_zip ++ "/" ++ fn, FileData.plain)))).filter
        (fun e2 => underDir (stripZip out_zip) e2.1)
      = (shapefile_parts layer).map
          (fun fn => (stripZip out_zip ++ "/" ++ fn, FileData.plain)) := by
    rw [List.filter_append, hfs_under]
    simp [shapefile_parts, underDir_append]
  rw [FS.setFile]
  dsimp only
  rw [hwalked]
  have hentries : ((shapefile_parts layer).map
      (fun fn => (stripZip out_zip ++ "/" ++ fn, FileData.plain))).map
        (fun e2 => relpath e2.1 (stripZip out_zip)) = shapefile_parts layer := by
    simp [shapefile_parts, relpath_append]
  rw [hentries]
  congr 1
  rw [List.filter_append, List.filter_append]
  have hparts_keep : ((shapefile_parts layer).map
      (fun fn => (stripZip out_zip ++ "/" ++ fn, FileData.plain))).filter
        (fun e2 => e2.1 != out_zip)
      = (shapefile_parts layer).map
          (fun fn => (stripZip out_zip ++ "/" ++ fn, FileData.plain)) := by
    simp only [List.filter_eq_self]
    intro a ha
    simp only [List.mem_map] at ha
    obtain ⟨fn, -, hfn⟩ := ha
    rw [← hfn]
    simp [hparts_ne fn]
  rw [hparts_keep]
  rw [List.filter_append]
  have hkeep1 : (fs.files.filter (fun e2 => e2.1 != out_zip)).filter
      (fun e2 => !underDir (stripZip out_zip) e2.1)
      = fs.files.filter (fun e2 => e2.1 != out_zip) := by
    rw [List.filter_eq_self]
    intro a ha
    simp [hfresh a (List.mem_filter.mp ha).1]
  have hdrop : ((shapefile_parts layer).map
      (fun fn => (stripZip out_zip ++ "/" ++ fn, FileData.plain))).filter
        (fun e2 => !underDir (stripZip out_zip) e2.1) = [] := by
    simp [shapefile_parts, underDir_append]
  rw [hkeep1, hdrop]
  simp [hout]

/-- C9: for a non-empty materialized result in local mode,
`write_shapefile_zip` writes the shapefile parts into the temporary directory
obtained from the archive path (the directory named after the gauge), archives
exactly those files into one compressed archive with entries relative to that
directory, and afterwards neither the temporary directory nor any file under
it exists: besides the archive the filesystem holds exactly the files it held
before.  Stated under the preconditions that the external writes succeed, the
temporary directory is initially empty, and the archive path does not lie
inside the temporary directory (true of the script's path scheme). -/
theorem C9_shapefile_zip_cleanup (env : Env) (gdf : GeoDataFrame) (fs : FS)
    (out_zip layer : String)
    (htf : env.toFile gdf (stripZip out_zip ++ "/" ++ (layer ++ ".shp")) = none)
    (hzw : env.zipWrite out_zip = none)
    (hfresh : ∀ e2 ∈ fs.files, underDir (stripZip out_zip) e2.1 = false)
    (hout : underDir (stripZip out_zip) out_zip = false) :
    ∃ fs2, write_shapefile_zip env gdf fs out_zip layer
        = (Except.ok (), fs2) ∧
      fs2.lookup out_zip = some (FileData.zipf (shapefile_parts layer)) ∧
      (∀ e2 ∈ fs2.files, underDir (stripZip out_zip) e2.1 = false) ∧
      stripZip out_zip ∉ fs2.dirs ∧
      fs2.files = fs.files.filter (fun e2 => e2.1 != out_zip)
        ++ [(out_zip, FileData.zipf (shapefile_parts layer))] := by
  refine ⟨_, write_shapefile_zip_eq env gdf fs out_zip layer htf hzw hfresh hout,
    ?_, ?_, ?_, rfl⟩
  · rw [FS.lookup]
    dsimp only
    rw [find?_key_append]
    · rfl
    · intro e2 he2
      have := (List.mem_filter.mp he2).2
      simpa using this
  · intro e2 he2
    rcases List.mem_append.mp he2 with hm | hm
    · exact hfresh e2 (List.mem_filter.mp hm).1
    · simp only [List.mem_singleton] at hm
      rw [hm]
      exact hout
  · intro hmem
    have := (List.mem_filter.mp hmem).2
    simp at this

/-- Witness for C1 on a concrete run: one gauge with a non-empty result gives
a combined archive with exactly its per-gauge entry. -/
theorem C1_witness :
    FS.lookup ((runMain envNE args0 df0).2).fs (combinedZipPath args0.out_dir)
      = some (FileData.zipf ["gauge_A_subbasins.zip"]) :=
  (C1_combined_entries envNE args0 df0 (runMain envNE args0 df0).2 rfl
    rfl).trans (by decide)

/-- Witness for C2 on a concrete empty-result gauge. -/
theorem C2_witness :
    process_gauge_row envMT args0 row0 [] (initEffects args0)
      = (Except.ok [],
         { effAfterQuery args0 row0 prec0 (initEffects args0) with
             notices := (initEffects args0).notices ++ [skipNotice "A"] }) :=
  (C2_empty_result_skips envMT args0 row0 [] 0 [] (initEffects args0) prec0
    rfl rfl rfl).1

/-- Witness for the amended C3 on a concrete run with limit 1 over two rows. -/
theorem C3_witness :
    ((runMain envNE { args0 with limit := some 1 } dfDup).2).rowsProcessed
      = (dfRows dfDup).take ((1 : Int).toNat) :=
  C3_limit_processes_prefix envNE { args0 with limit := some 1 } dfDup
    (runMain envNE { args0 with limit := some 1 } dfDup).2 1 rfl (by decide) rfl

/-- Witness for C4 on a table missing the longitude column. -/
theorem C4_witness :
    ∃ e2, runMain envNE args0 dfMiss = (Except.error e2, initEffects args0) ∧
      (initEffects args0).queries = [] ∧
      (initEffects args0).rowsProcessed = [] ∧
      (initEffects args0).fs.files = [] :=
  C4_missing_column_aborts envNE args0 dfMiss (by decide)

/-- Witness for C5 on a concrete remote-mode run. -/
theorem C5_witness :
    ((runMain envNE { args0 with export_mode := ExportMode.ee_drive }
        df0).2).fs.files = [] ∧
    ((runMain envNE { args0 with export_mode := ExportMode.ee_drive }
        df0).2).fs.dirs = ["outputs"] ∧
    ((runMain envNE { args0 with export_mode := ExportMode.ee_drive }
        df0).2).writtenZips = [] :=
  C5_remote_no_archives envNE { args0 with export_mode := ExportMode.ee_drive }
    df0
    (runMain envNE { args0 with export_mode := ExportMode.ee_drive } df0).1
    (runMain envNE { args0 with export_mode := ExportMode.ee_drive } df0).2
    rfl rfl

/-- Witness for C6 on the query built by a concrete run. -/
theorem C6_witness :
    bufferRadiusOf (get_subbasins_fc 2 1 25) = some (1000 * args0.buffer_km) :=
  C6_buffer_radius envNE args0 df0 (runMain envNE args0 df0).1
    (runMain envNE args0 df0).2 rfl (get_subbasins_fc 2 1 25) (by
      have hq : (runMain envNE args0 df0).2.queries
          = [get_subbasins_fc 2 1 25] := rfl
      rw [hq]
      exact List.mem_singleton.mpr rfl)

/-- Witness for the amended C7 on a concrete run with distinct station ids. -/
theorem C7_witness :
    ((runMain envNE args0 df0).2).writtenZips.Nodup ∧
    ((runMain envNE args0 df0).2).writtenZips
      = (((runMain envNE args0 df0).2).processed.filter
          (fun p => nonemptyResult envNE args0 p)).map (pathOfRec args0) :=
  C7_artifact_correspondence envNE args0 df0 (runMain envNE args0 df0).2
    rfl rfl (by decide)

/-- Witness for C8: a failing download on the first of two rows stops the
loop with that error and the second row is never processed. -/
theorem C8_witness :
    runLoop envFail args0 (row0 :: [row0]) 0 [] (initEffects args0)
      = (Except.error "EEException", [],
         (process_gauge_row envFail args0 row0 [] (initEffects args0)).2) ∧
    ((process_gauge_row envFail args0 row0 []
        (initEffects args0)).2).rowsProcessed
      = (initEffects args0).rowsProcessed ++ [row0] :=
  C8_exception_halts envFail args0 row0 [row0] 0 [] (initEffects args0)
    (process_gauge_row envFail args0 row0 [] (initEffects args0)).2
    "EEException" rfl

/-- Witness for C9 on a concrete one-feature frame and an empty filesystem. -/
theorem C9_witness :
    ∃ fs2, write_shapefile_zip envNE
        (GeoDataFrame.mk [GDFRow.mk "poly0" []] "EPSG:4326") FS.empty
        "outputs/gauge_A_subbasins.zip" "gauge_A_subbasins"
        = (Except.ok (), fs2) ∧
      fs2.lookup "outputs/gauge_A_subbasins.zip"
        = some (FileData.zipf (shapefile_parts "gauge_A_subbasins")) ∧
      (∀ e2 ∈ fs2.files,
        underDir (stripZip "outputs/gauge_A_subbasins.zip") e2.1 = false) ∧
      stripZip "outputs/gauge_A_subbasins.zip" ∉ fs2.dirs ∧
      fs2.files = FS.empty.files.filter
          (fun e2 => e2.1 != "outputs/gauge_A_subbasins.zip")
        ++ [("outputs/gauge_A_subbasins.zip",
             FileData.zipf (shapefile_parts "gauge_A_subbasins"))] :=
  C9_shapefile_zip_cleanup envNE
    (GeoDataFrame.mk [GDFRow.mk "poly0" []] "EPSG:4326") FS.empty
    "outputs/gauge_A_subbasins.zip" "gauge_A_subbasins"
    rfl rfl (by decide) (by decide)

/-- Witness for C10 on a concrete two-row run. -/
theorem C10_witness :
    (∃ ps, ((runLoop envNE args0 (dfRows dfDup) 0 []
          (initEffects args0)).2.2).processed
        = (initEffects args0).processed ++ ps ∧
       (runLoop envNE args0 (dfRows dfDup) 0 [] (initEffects args0)).2.1
        = [] ++ (ps.filter (fun p => nonemptyResult envNE args0 p)).map
            (pathOfRec args0)) ∧
    ((runLoop envNE args0 (dfRows dfDup) 0 [] (initEffects args0)).2.1 ≠ [] →
       FS.lookup
         (build_combined_zip
           ((runLoop envNE args0 (dfRows dfDup) 0 [] (initEffects args0)).2.1)
           "outputs" FS.empty)
         (combinedZipPath "outputs")
         = some (FileData.zipf
             (((runLoop envNE args0 (dfRows dfDup) 0 []
                 (initEffects args0)).2.1).map basename))) :=
  C10_entry_order envNE args0 (dfRows dfDup) 0 []
    ((runLoop envNE args0 (dfRows dfDup) 0 [] (initEffects args0)).2.1)
    (initEffects args0)
    ((runLoop envNE args0 (dfRows dfDup) 0 [] (initEffects args0)).2.2)
    "outputs" FS.empty rfl rfl
